import Mathlib

/-!
Verification of the token authorizer (src/authorizer/app.py) of the
Tarot-Jeong backend.  The authorizer is a linear pipeline: extract a bearer
token from the incoming event, resolve the signing key for the token issuer
through a per-issuer cached JWKS client, verify the signature and claims,
and return an IAM-style policy decision.

The JWT library surface (token parsing, signature verification, JWKS
fetching) is external to the repository; it is modelled abstractly through
an environment of oracle functions, while every decision made by the
repository code itself (control flow, fallbacks, message strings, caching
of clients, context construction) is translated line by line from
src/authorizer/app.py.
-/

namespace TarotAuthorizer

/-! Python string primitives used by the authorizer, embedded as
structurally recursive functions over the code points of a string so that
concrete inputs evaluate inside the kernel. -/

/-- Python str.split with a one-character separator: no collapsing of
empty fields, and the empty string splits to one empty field. -/
def splitChar (sep : Char) : List Char → List (List Char)
  | [] => [[]]
  | c :: rest =>
    let r := splitChar sep rest
    if c = sep then [] :: r
    else
      match r with
      | [] => [[c]]
      | g :: gs => (c :: g) :: gs

/-- Python str.split(sep) for a one-character separator string. -/
def pySplit (s : String) (sep : Char) : List String :=
  (splitChar sep s.data).map String.mk

/-- The ASCII whitespace characters stripped by Python str.strip. -/
def isPySpace (c : Char) : Bool :=
  c = ' ' || c = '\t' || c = '\n' || c = '\x0d' || c = '\x0b' || c = '\x0c'

/-- Python str.strip(): remove leading and trailing whitespace. -/
def pyStrip (s : String) : String :=
  String.mk (((s.data.dropWhile isPySpace).reverse.dropWhile isPySpace).reverse)

/-- ASCII lowercasing of one character, as Python str.lower acts on the
ASCII range used by header names and the Bearer marker. -/
def asciiLower (c : Char) : Char :=
  if 65 ≤ c.toNat ∧ c.toNat ≤ 90 then Char.ofNat (c.toNat + 32) else c

/-- Python str.lower(). -/
def pyLower (s : String) : String :=
  String.mk (s.data.map asciiLower)

/-- Python str.startswith(p). -/
def pyStartsWith (s p : String) : Bool :=
  p.data.isPrefixOf s.data

/-- Python slicing s[n:] by code points. -/
def pyDrop (s : String) (n : Nat) : String :=
  String.mk (s.data.drop n)

/-- Unverified JWT header segment: the fields the authorizer reads. -/
structure JwtHeader where
  alg : Option String
  kid : Option String
  deriving DecidableEq

/-- The nested user_metadata map, as read by the authorizer. -/
structure UserMetadata where
  full_name : Option String
  avatar_url : Option String
  deriving DecidableEq

/-- A JSON-valued claim slot: the key can be absent, hold JSON null, or
hold a value.  Needed for the dict-valued user_metadata claim, where the
source distinguishes absent (the dict.get default applies) from null (the
stored None is returned and a method call on it raises). -/
inductive JsonOpt (α : Type) where
  | absent
  | null
  | val (a : α)
  deriving DecidableEq

/-- JWT payload claims read by the authorizer.  For the string-valued
claims a value of none models a missing claim or a JSON null: the source
reads them with dict.get and falsy-coalesces, so the two cases behave
identically.  The dict-valued user_metadata claim keeps the three-way
distinction, because absent and null behave differently in the source. -/
structure JwtClaims where
  iss : Option String
  sub : Option String
  aud : Option String
  email : Option String
  role : Option String
  user_metadata : JsonOpt UserMetadata
  deriving DecidableEq

/-- A structurally parsed three-segment token. -/
structure JwtToken where
  header : JwtHeader
  payload : JwtClaims
  deriving DecidableEq

/-- Modelled from the spec: the external JWT and network surface that the
authorizer calls into (PyJWT parsing, ES256 signature verification, and the
key-discovery HTTP GET).  parse returns none for a structurally invalid
token string; sigValid abstracts cryptographic signature verification of a
token against key material, together with the time-based claim checks the
verification library performs; net returns, for a JWKS URL, either the list
of (kid, key material) pairs of the discovered document or a failure
message. -/
structure JwtEnv where
  parse : String → Option JwtToken
  sigValid : String → JwtToken → Bool
  net : String → Except String (List (String × String))

/-- Python errors as they matter to the handler: PyJWTError (and its
subclasses) carry a message surfaced via str(e); every other exception is
reported as a generic internal error. -/
inductive PyError where
  | pyjwt (msg : String)
  | other (msg : String)
  deriving DecidableEq

/-- What str(e) contributes to the outward context: the message for a
PyJWTError, the fixed internal-error string for any other exception,
mirroring the two except clauses of lambda_handler. -/
def strOfErr : PyError → String
  | PyError.pyjwt m => m
  | PyError.other _ => "Internal server error"

/-- Python truthiness of an optional string: None and the empty string are
falsy, any other string is truthy. -/
def pyTruthy : Option String → Bool
  | none => false
  | some s => !(s == "")

/-- Python logical or on optional strings: the first operand if truthy,
otherwise the second. -/
def pyOr (a b : Option String) : Option String :=
  if pyTruthy a then a else b

/-- Incoming authorizer event: headers (insertion-ordered), the optional
methodArn, and the optional REST-style authorizationToken field. -/
structure Event where
  headers : List (String × String)
  methodArn : Option String
  authorizationToken : Option String

/-- One IAM policy statement as built by generate_policy. -/
structure PolicyStatement where
  action : String
  effect : String
  resource : String
  deriving DecidableEq

/-- The policyDocument of the authorizer response. -/
structure PolicyDocument where
  version : String
  statement : List PolicyStatement
  deriving DecidableEq

/-- The full authorizer response: principalId, policyDocument, and the
context map when one was attached. -/
structure AuthResponse where
  principalId : String
  policyDocument : PolicyDocument
  context : Option (List (String × String))
  deriving DecidableEq

/-- Python truthiness of the optional context dict: None and the empty
dict are falsy. -/
def ctxTruthy : Option (List (String × String)) → Bool
  | none => false
  | some l => !l.isEmpty

/-- generate_policy of app.py: build the IAM policy response; the context
key is attached only when the context argument is truthy. -/
def generate_policy (principal_id effect resource : String)
    (context : Option (List (String × String))) : AuthResponse :=
  let policy : AuthResponse :=
    { principalId := principal_id
      policyDocument :=
        { version := "2012-10-17"
          statement :=
            [{ action := "execute-api:Invoke"
               effect := effect
               resource := resource }] }
      context := none }
  if ctxTruthy context then { policy with context := context } else policy

/-- The effect of a response: the effect of its single policy statement. -/
def effectOf (r : AuthResponse) : String :=
  (r.policyDocument.statement.getD 0
    { action := "", effect := "", resource := "" }).effect

/-- Modelled from the spec: the state of one PyJWKClient, the JWKS client
the library provides.  It remembers its endpoint URL and, once the
key-discovery document has been fetched, caches the (kid, key) pairs for
the lifetime of the process. -/
structure PyJWKClient where
  uri : String
  fetched : Option (List (String × String))
  deriving DecidableEq

/-- The per-issuer client cache of app.py (module-level jwks_clients
dict), the only state shared across invocations. -/
structure AuthState where
  jwks_clients : String → Option PyJWKClient

/-- Modelled from the spec: get_signing_key_from_jwt of PyJWKClient.
Returns the key material matching the kid, the possibly updated client
(document cached after a first successful fetch), and the list of JWKS
URLs fetched during the call.  A missing kid in the document and a failed
fetch raise library errors that are not PyJWTError subclasses. -/
def get_signing_key_from_jwt (env : JwtEnv) (c : PyJWKClient) (kid : String) :
    Except PyError String × PyJWKClient × List String :=
  match c.fetched with
  | some ks =>
    match ks.lookup kid with
    | some k => (Except.ok k, c, [])
    | none => (Except.error (PyError.other "Unable to find a signing key"), c, [])
  | none =>
    match env.net c.uri with
    | Except.ok ks =>
      match ks.lookup kid with
      | some k => (Except.ok k, { c with fetched := some ks }, [c.uri])
      | none =>
        (Except.error (PyError.other "Unable to find a signing key"),
          { c with fetched := some ks }, [c.uri])
    | Except.error m => (Except.error (PyError.other m), c, [c.uri])

/-- Diagnostic raised by get_signing_key when the token header has no kid
(source message, Korean). -/
def kidMissingMsg : String := "토큰 헤더에 \x27kid\x27가 없습니다."

/-- Diagnostic raised by get_signing_key when the token payload has no iss
(source message, Korean). -/
def issMissingMsg : String := "토큰 페이로드에 \x27iss\x27가 없습니다."

/-- The issuer-cache step of get_signing_key: reuse the cached client for
a known issuer, otherwise construct a fresh client for the issuer JWKS
endpoint (the construction itself performs no fetch; the document is
fetched lazily on first key lookup). -/
def resolveClient (st : AuthState) (issuer : String) : PyJWKClient :=
  match st.jwks_clients issuer with
  | some c => c
  | none => { uri := issuer ++ "/.well-known/jwks.json", fetched := none }

/-- The key-lookup step of get_signing_key once kid and issuer are known:
resolve the client, ask it for the key matching kid, and store the
possibly updated client back under the issuer (the dict entry and the
client internal cache persist across invocations). -/
def finishKey (env : JwtEnv) (st : AuthState) (issuer kid : String) :
    Except PyError String × AuthState × List String :=
  ((get_signing_key_from_jwt env (resolveClient st issuer) kid).1,
   { jwks_clients := fun i =>
       if i = issuer then
         some (get_signing_key_from_jwt env (resolveClient st issuer) kid).2.1
       else st.jwks_clients i },
   (get_signing_key_from_jwt env (resolveClient st issuer) kid).2.2)

/-- get_signing_key of app.py: read kid from the unverified header and iss
from the unverified payload, create and cache a JWKS client for an unseen
issuer, and resolve the key matching kid.  Returns the result, the updated
module state, and the list of JWKS URLs fetched. -/
def get_signing_key (env : JwtEnv) (token : String) (st : AuthState) :
    Except PyError String × AuthState × List String :=
  match env.parse token with
  | none => (Except.error (PyError.pyjwt "Not enough segments"), st, [])
  | some t =>
    if !pyTruthy t.header.kid then
      (Except.error (PyError.pyjwt kidMissingMsg), st, [])
    else if !pyTruthy t.payload.iss then
      (Except.error (PyError.pyjwt issMissingMsg), st, [])
    else
      finishKey env st (t.payload.iss.getD "") (t.header.kid.getD "")

/-- Modelled from the spec: jwt.decode with the resolved public key,
algorithms fixed to the single entry ES256, and audience verification
against the fixed value "authenticated".  Any advertised algorithm other
than ES256 (including none), a failing signature, or a wrong or missing
audience is a PyJWTError. -/
def jwt_decode_verified (env : JwtEnv) (token key : String) :
    Except PyError JwtClaims :=
  match env.parse token with
  | none => Except.error (PyError.pyjwt "Not enough segments")
  | some t =>
    if t.header.alg ≠ some "ES256" then
      Except.error (PyError.pyjwt "The specified alg value is not allowed")
    else if !env.sigValid key t then
      Except.error (PyError.pyjwt "Signature verification failed")
    else
      match t.payload.aud with
      | none => Except.error (PyError.pyjwt "Token is missing the aud claim")
      | some a =>
        if a ≠ "authenticated" then
          Except.error (PyError.pyjwt "Invalid audience")
        else Except.ok t.payload

/-- Resource-ARN derivation of lambda_handler: split the methodArn on
colons, take region and account and the sixth field, split that on slashes
for api id and stage, and rebuild the stage wildcard ARN; on any indexing
failure fall back to the raw methodArn, or the global wildcard when the
event has no methodArn. -/
def deriveResource (methodArn : Option String) : String :=
  let method_arn := methodArn.getD ""
  let arn_parts := pySplit method_arn ':'
  if 6 ≤ arn_parts.length then
    let api_gateway_arn_parts := pySplit (arn_parts.getD 5 "") '/'
    if 2 ≤ api_gateway_arn_parts.length then
      "arn:aws:execute-api:" ++ arn_parts.getD 3 "" ++ ":" ++
        arn_parts.getD 4 "" ++ ":" ++ api_gateway_arn_parts.getD 0 "" ++
        "/" ++ api_gateway_arn_parts.getD 1 "" ++ "/*"
    else methodArn.getD "*"
  else methodArn.getD "*"

/-- Case-insensitive search for the authorization header: the first header
entry whose name lowercases to authorization, as in the next(...) scan of
lambda_handler. -/
def findAuthHeader (headers : List (String × String)) : Option String :=
  (headers.find? (fun kv => pyLower kv.1 == "authorization")).map Prod.snd

/-- Token extraction of lambda_handler: the authorization header value or,
when that is falsy, the authorizationToken field. -/
def extractedToken (event : Event) : Option String :=
  pyOr (findAuthHeader event.headers) event.authorizationToken

/-- Token normalization of lambda_handler: strip surrounding whitespace,
then drop the first seven characters when the lowercased token starts with
the string bearer followed by one space. -/
def normalizeToken (s : String) : String :=
  let t := pyStrip s
  if pyStartsWith (pyLower t) "bearer " then pyDrop t 7 else t

/-- decoded.get with the empty-dict default, as the source reads
user_metadata: the empty map when the key is absent, the stored value
otherwise — which is None (here none) when the stored value is JSON
null, since the default applies only to a missing key. -/
def pyGetUserMetadata (d : JwtClaims) : Option UserMetadata :=
  match d.user_metadata with
  | JsonOpt.absent => some { full_name := none, avatar_url := none }
  | JsonOpt.null => none
  | JsonOpt.val m => some m

/-- The context construction on the success path of lambda_handler:
reading full_name with a dict method raises AttributeError when
user_metadata is JSON null (None carries no get method); otherwise the
five string fields are built, each falsy-coalesced to the empty string.
The AttributeError is not a PyJWTError, so it surfaces through the
generic except clause. -/
def authorizer_context (d : JwtClaims) : Except PyError (List (String × String)) :=
  match pyGetUserMetadata d with
  | none =>
    Except.error (PyError.other "AttributeError: NoneType object has no attribute get")
  | some user_metadata =>
    Except.ok
      [("user_id", d.sub.getD ""),
       ("email", d.email.getD ""),
       ("role", d.role.getD ""),
       ("full_name", user_metadata.full_name.getD ""),
       ("profile_image_url", user_metadata.avatar_url.getD "")]

/-- lambda_handler of app.py: derive the resource, extract and normalize
the token, resolve the signing key, verify the token, and return the
policy decision together with the updated module state and the list of
JWKS URLs fetched.  Every library failure is caught and converted to a
Deny decision, so the Lean translation is a total function. -/
def lambda_handler (env : JwtEnv) (event : Event) (st : AuthState) :
    AuthResponse × AuthState × List String :=
  let resource := deriveResource event.methodArn
  let tokenOpt := extractedToken event
  if pyTruthy tokenOpt then
    let token := normalizeToken (tokenOpt.getD "")
    match get_signing_key env token st with
    | (Except.error e, st1, tr) =>
      (generate_policy "user" "Deny" resource (some [("error", strOfErr e)]), st1, tr)
    | (Except.ok public_key, st1, tr) =>
      match jwt_decode_verified env token public_key with
      | Except.error e =>
        (generate_policy "user" "Deny" resource (some [("error", strOfErr e)]), st1, tr)
      | Except.ok decoded =>
        if pyTruthy decoded.sub then
          match authorizer_context decoded with
          | Except.error e =>
            (generate_policy "user" "Deny" resource
              (some [("error", strOfErr e)]), st1, tr)
          | Except.ok ctx =>
            (generate_policy (decoded.sub.getD "") "Allow" resource (some ctx), st1, tr)
        else
          (generate_policy "user" "Deny" resource
            (some [("error", "Invalid token claims")]), st1, tr)
  else
    (generate_policy "user" "Deny" resource
      (some [("error", "Authorization token missing")]), st, [])

/-! Concrete fixtures: closed environments, events and states used to
evaluate the verified properties on explicit inputs. -/

/-- A token that verifies: ES256, known kid, issuer, audience and sub. -/
def tok2a : JwtToken :=
  ⟨⟨some "ES256", some "k2"⟩, ⟨some "https://i2", some "sub2", some "authenticated", none, none, JsonOpt.absent⟩⟩

/-- Environment in which tok2a parses, every signature verifies and the
issuer JWKS document carries key k2. -/
def env2a : JwtEnv :=
  ⟨fun _ => some tok2a, fun _ _ => true, fun _ => Except.ok [("k2", "KEY2")]⟩

/-- Event carrying a Bearer token in the canonical header. -/
def event2a : Event := ⟨[("Authorization", "Bearer t")], none, none⟩

/-- Empty client cache. -/
def st2a : AuthState := ⟨fun _ => none⟩

/-- A token advertising the algorithm none. -/
def tok2b : JwtToken :=
  ⟨⟨some "none", some "k2"⟩, ⟨some "https://i2", some "sub2", some "authenticated", none, none, JsonOpt.absent⟩⟩

/-- Environment in which tok2b parses and the key material resolves. -/
def env2b : JwtEnv :=
  ⟨fun _ => some tok2b, fun _ _ => true, fun _ => Except.ok [("k2", "KEY2")]⟩

/-- Event carrying a Bearer token in the canonical header. -/
def event2b : Event := ⟨[("Authorization", "Bearer t")], none, none⟩

/-- Empty client cache. -/
def st2b : AuthState := ⟨fun _ => none⟩

/-- Environment that parses nothing and resolves nothing. -/
def env3 : JwtEnv := ⟨fun _ => none, fun _ _ => false, fun _ => Except.error "down"⟩

/-- Event with no authorization header and no alternate token field. -/
def event3 : Event := ⟨[("X-Api-Key", "1")], some "arn", none⟩

/-- Empty client cache. -/
def st3 : AuthState := ⟨fun _ => none⟩

/-- A token whose header has no kid. -/
def tok6 : JwtToken :=
  ⟨⟨some "ES256", none⟩, ⟨some "https://i6", some "s6", some "authenticated", none, none, JsonOpt.absent⟩⟩

/-- Environment in which tok6 parses. -/
def env6 : JwtEnv :=
  ⟨fun _ => some tok6, fun _ _ => true, fun _ => Except.ok []⟩

/-- Event carrying the token in the REST-style alternate field. -/
def event6 : Event := ⟨[], none, some "t6"⟩

/-- Empty client cache. -/
def st6 : AuthState := ⟨fun _ => none⟩

/-- A token that resolves key k7 at issuer i7. -/
def tok7 : JwtToken :=
  ⟨⟨some "ES256", some "k7"⟩, ⟨some "https://i7", some "s7", some "authenticated", none, none, JsonOpt.absent⟩⟩

/-- Environment in which tok7 parses and the issuer document carries k7. -/
def env7 : JwtEnv :=
  ⟨fun _ => some tok7, fun _ _ => true, fun _ => Except.ok [("k7", "KEY7")]⟩

/-- Empty client cache. -/
def st7 : AuthState := ⟨fun _ => none⟩

/-- The claims of the spec example: sub user-123, email a@b.com, no
role, no user_metadata. -/
def d8 : JwtClaims :=
  ⟨some "https://i8", some "user-123", some "authenticated", some "a@b.com", none, JsonOpt.absent⟩

/-- A verifying token carrying the claims d8. -/
def tok8 : JwtToken := ⟨⟨some "ES256", some "k8"⟩, d8⟩

/-- Environment in which tok8 parses, verifies and resolves key k8. -/
def env8 : JwtEnv :=
  ⟨fun _ => some tok8, fun _ _ => true, fun _ => Except.ok [("k8", "KEY8")]⟩

/-- Event carrying a Bearer token in the canonical header. -/
def event8 : Event := ⟨[("Authorization", "Bearer t8")], none, none⟩

/-- Empty client cache. -/
def st8 : AuthState := ⟨fun _ => none⟩

/-- Environment that parses nothing and resolves nothing. -/
def env9 : JwtEnv := ⟨fun _ => none, fun _ _ => false, fun _ => Except.error "down"⟩

/-- Event with neither header nor alternate token. -/
def event9 : Event := ⟨[], none, none⟩

/-- Empty client cache. -/
def st9 : AuthState := ⟨fun _ => none⟩

/-- Claims identical to the spec example except that user_metadata is
JSON null rather than absent. -/
def d8n : JwtClaims :=
  ⟨some "https://i8", some "user-123", some "authenticated", some "a@b.com", none, JsonOpt.null⟩

/-- A verifying token carrying the claims d8n. -/
def tok8n : JwtToken := ⟨⟨some "ES256", some "k8"⟩, d8n⟩

/-- Environment in which tok8n parses, verifies and resolves key k8. -/
def env8n : JwtEnv :=
  ⟨fun _ => some tok8n, fun _ _ => true, fun _ => Except.ok [("k8", "KEY8N")]⟩

/-- Event carrying a Bearer token in the canonical header. -/
def event8n : Event := ⟨[("Authorization", "Bearer t8n")], none, none⟩

/-- Empty client cache. -/
def st8n : AuthState := ⟨fun _ => none⟩

end TarotAuthorizer

namespace TarotAuthorizer

theorem effectOf_generate_policy (p e r : String) (c : Option (List (String × String))) :
    effectOf (generate_policy p e r c) = e := by
  unfold generate_policy effectOf
  cases h : ctxTruthy c <;> simp

theorem principalId_generate_policy (p e r : String) (c : Option (List (String × String))) :
    (generate_policy p e r c).principalId = p := by
  unfold generate_policy
  cases h : ctxTruthy c <;> simp

theorem context_generate_policy_err (p e r m : String) :
    (generate_policy p e r (some [("error", m)])).context = some [("error", m)] := by
  unfold generate_policy
  simp [ctxTruthy]

theorem context_generate_policy_cons (p e r : String) (x : String × String)
    (l : List (String × String)) :
    (generate_policy p e r (some (x :: l))).context = some (x :: l) := by
  unfold generate_policy
  simp [ctxTruthy]

theorem lambda_handler_cases (env : JwtEnv) (event : Event) (st : AuthState) :
    (pyTruthy (extractedToken event) = false ∧
      lambda_handler env event st =
        (generate_policy "user" "Deny" (deriveResource event.methodArn)
          (some [("error", "Authorization token missing")]), st, [])) ∨
    (∃ e st1 tr, pyTruthy (extractedToken event) = true ∧
      get_signing_key env (normalizeToken ((extractedToken event).getD "")) st =
        (Except.error e, st1, tr) ∧
      lambda_handler env event st =
        (generate_policy "user" "Deny" (deriveResource event.methodArn)
          (some [("error", strOfErr e)]), st1, tr)) ∨
    (∃ k st1 tr e, pyTruthy (extractedToken event) = true ∧
      get_signing_key env (normalizeToken ((extractedToken event).getD "")) st =
        (Except.ok k, st1, tr) ∧
      jwt_decode_verified env (normalizeToken ((extractedToken event).getD "")) k =
        Except.error e ∧
      lambda_handler env event st =
        (generate_policy "user" "Deny" (deriveResource event.methodArn)
          (some [("error", strOfErr e)]), st1, tr)) ∨
    (∃ k st1 tr d, pyTruthy (extractedToken event) = true ∧
      get_signing_key env (normalizeToken ((extractedToken event).getD "")) st =
        (Except.ok k, st1, tr) ∧
      jwt_decode_verified env (normalizeToken ((extractedToken event).getD "")) k =
        Except.ok d ∧ pyTruthy d.sub = false ∧
      lambda_handler env event st =
        (generate_policy "user" "Deny" (deriveResource event.methodArn)
          (some [("error", "Invalid token claims")]), st1, tr)) ∨
    (∃ k st1 tr d e, pyTruthy (extractedToken event) = true ∧
      get_signing_key env (normalizeToken ((extractedToken event).getD "")) st =
        (Except.ok k, st1, tr) ∧
      jwt_decode_verified env (normalizeToken ((extractedToken event).getD "")) k =
        Except.ok d ∧ pyTruthy d.sub = true ∧
      authorizer_context d = Except.error e ∧
      lambda_handler env event st =
        (generate_policy "user" "Deny" (deriveResource event.methodArn)
          (some [("error", strOfErr e)]), st1, tr)) ∨
    (∃ k st1 tr d ctx, pyTruthy (extractedToken event) = true ∧
      get_signing_key env (normalizeToken ((extractedToken event).getD "")) st =
        (Except.ok k, st1, tr) ∧
      jwt_decode_verified env (normalizeToken ((extractedToken event).getD "")) k =
        Except.ok d ∧ pyTruthy d.sub = true ∧
      authorizer_context d = Except.ok ctx ∧
      lambda_handler env event st =
        (generate_policy (d.sub.getD "") "Allow" (deriveResource event.methodArn)
          (some ctx), st1, tr)) := by
  cases htok : pyTruthy (extractedToken event)
  · left
    exact ⟨rfl, by simp [lambda_handler, htok]⟩
  · right
    rcases hg : get_signing_key env (normalizeToken ((extractedToken event).getD "")) st with ⟨r, st1, tr⟩
    cases r with
    | error e =>
      left
      exact ⟨e, st1, tr, rfl, rfl, by simp [lambda_handler, htok, hg]⟩
    | ok k =>
      right
      cases hd : jwt_decode_verified env (normalizeToken ((extractedToken event).getD "")) k with
      | error e =>
        left
        exact ⟨k, st1, tr, e, rfl, rfl, hd, by simp [lambda_handler, htok, hg, hd]⟩
      | ok d =>
        right
        cases hs : pyTruthy d.sub
        · left
          exact ⟨k, st1, tr, d, rfl, rfl, hd, hs, by simp [lambda_handler, htok, hg, hd, hs]⟩
        · right
          cases hctx : authorizer_context d with
          | error e =>
            left
            exact ⟨k, st1, tr, d, e, rfl, rfl, hd, hs, hctx,
              by simp [lambda_handler, htok, hg, hd, hs, hctx]⟩
          | ok ctx =>
            right
            exact ⟨k, st1, tr, d, ctx, rfl, rfl, hd, hs, hctx,
              by simp [lambda_handler, htok, hg, hd, hs, hctx]⟩

theorem jwt_decode_verified_ok_inv (env : JwtEnv) (token key : String) (d : JwtClaims)
    (h : jwt_decode_verified env token key = Except.ok d) :
    ∃ t, env.parse token = some t ∧ t.header.alg = some "ES256" ∧
      env.sigValid key t = true ∧ t.payload.aud = some "authenticated" ∧ d = t.payload := by
  unfold jwt_decode_verified at h
  cases hp : env.parse token with
  | none => rw [hp] at h; exact absurd h (by simp)
  | some t =>
    rw [hp] at h
    by_cases halg : t.header.alg = some "ES256"
    · cases hsig : env.sigValid key t
      · simp [halg, hsig] at h
      · cases haud : t.payload.aud with
        | none => simp [halg, hsig, haud] at h
        | some a =>
          by_cases ha : a = "authenticated"
          · subst ha
            simp [halg, hsig, haud] at h
            exact ⟨t, rfl, halg, hsig, haud, h.symm⟩
          · simp [halg, hsig, haud, ha] at h
    · simp [halg] at h

theorem get_signing_key_from_jwt_ok_inv (env : JwtEnv) (c : PyJWKClient) (kid k : String)
    (cu : PyJWKClient) (tr : List String)
    (h : get_signing_key_from_jwt env c kid = (Except.ok k, cu, tr)) :
    ∃ ks, cu.fetched = some ks ∧ ks.lookup kid = some k ∧ tr.length ≤ 1 := by
  unfold get_signing_key_from_jwt at h
  cases hf : c.fetched with
  | some ks =>
    cases hl : ks.lookup kid with
    | some kk =>
      simp only [hf, hl, Prod.mk.injEq] at h
      obtain ⟨h1, h2, h3⟩ := h
      refine ⟨ks, ?_, ?_, ?_⟩
      · rw [← h2, hf]
      · rw [hl]; exact congrArg some (Except.ok.inj h1)
      · rw [← h3]; simp
    | none => simp only [hf, hl, Prod.mk.injEq] at h; simp at h
  | none =>
    cases hn : env.net c.uri with
    | ok ks =>
      cases hl : ks.lookup kid with
      | some kk =>
        simp only [hf, hn, hl, Prod.mk.injEq] at h
        obtain ⟨h1, h2, h3⟩ := h
        refine ⟨ks, ?_, ?_, ?_⟩
        · rw [← h2]
        · rw [hl]; exact congrArg some (Except.ok.inj h1)
        · rw [← h3]; simp
      | none => simp only [hf, hn, hl, Prod.mk.injEq] at h; simp at h
    | error m => simp only [hf, hn, Prod.mk.injEq] at h; simp at h

theorem get_signing_key_from_jwt_cached (env : JwtEnv) (c : PyJWKClient) (kid k : String)
    (ks : List (String × String))
    (hf : c.fetched = some ks) (hl : ks.lookup kid = some k) :
    get_signing_key_from_jwt env c kid = (Except.ok k, c, []) := by
  unfold get_signing_key_from_jwt
  simp only [hf, hl]

theorem finishKey_ok_inv (env : JwtEnv) (st : AuthState) (issuer kid k : String)
    (st1 : AuthState) (tr : List String)
    (h : finishKey env st issuer kid = (Except.ok k, st1, tr)) :
    ∃ c ks, st1.jwks_clients issuer = some c ∧ c.fetched = some ks ∧
      ks.lookup kid = some k ∧ tr.length ≤ 1 := by
  unfold finishKey at h
  rcases hg : get_signing_key_from_jwt env (resolveClient st issuer) kid with ⟨r, cu, tru⟩
  rw [hg] at h
  simp only [Prod.mk.injEq] at h
  obtain ⟨h1, h2, h3⟩ := h
  subst h1
  obtain ⟨ks, hks, hl, htr⟩ :=
    get_signing_key_from_jwt_ok_inv env (resolveClient st issuer) kid k cu tru hg
  refine ⟨cu, ks, ?_, hks, hl, ?_⟩
  · rw [← h2]; simp
  · rw [← h3]; exact htr

theorem finishKey_cached (env : JwtEnv) (st : AuthState) (issuer kid k : String)
    (c : PyJWKClient) (ks : List (String × String))
    (hc : st.jwks_clients issuer = some c) (hf : c.fetched = some ks)
    (hl : ks.lookup kid = some k) :
    finishKey env st issuer kid = (Except.ok k, st, []) := by
  unfold finishKey
  have hrc : resolveClient st issuer = c := by unfold resolveClient; rw [hc]
  rw [hrc, get_signing_key_from_jwt_cached env c kid k ks hf hl]
  have hst : ({ jwks_clients := fun i => if i = issuer then some c else st.jwks_clients i } : AuthState) = st := by
    cases st with
    | mk f =>
      simp only [AuthState.mk.injEq]
      funext i
      by_cases hi : i = issuer
      · subst hi
        simpa using hc.symm
      · simp [hi]
  simp [hst]

theorem get_signing_key_ok_inv (env : JwtEnv) (token : String) (st : AuthState)
    (k : String) (st1 : AuthState) (tr : List String)
    (h : get_signing_key env token st = (Except.ok k, st1, tr)) :
    ∃ t c ks, env.parse token = some t ∧
      pyTruthy t.header.kid = true ∧ pyTruthy t.payload.iss = true ∧
      st1.jwks_clients (t.payload.iss.getD "") = some c ∧
      c.fetched = some ks ∧ ks.lookup (t.header.kid.getD "") = some k ∧
      tr.length ≤ 1 := by
  unfold get_signing_key at h
  split at h
  · simp at h
  · rename_i t hp
    split at h
    · simp at h
    · split at h
      · simp at h
      · rename_i hkid hiss
        obtain ⟨c, ks, hc1, hf, hl, htr⟩ :=
          finishKey_ok_inv env st (t.payload.iss.getD "") (t.header.kid.getD "") k st1 tr h
        refine ⟨t, c, ks, hp, ?_, ?_, hc1, hf, hl, htr⟩
        · simpa using hkid
        · simpa using hiss

theorem get_signing_key_cached (env : JwtEnv) (token : String) (st : AuthState)
    (t : JwtToken) (c : PyJWKClient) (ks : List (String × String)) (k : String)
    (hp : env.parse token = some t) (hkid : pyTruthy t.header.kid = true)
    (hiss : pyTruthy t.payload.iss = true)
    (hc : st.jwks_clients (t.payload.iss.getD "") = some c)
    (hf : c.fetched = some ks)
    (hl : ks.lookup (t.header.kid.getD "") = some k) :
    get_signing_key env token st = (Except.ok k, st, []) := by
  unfold get_signing_key
  rw [hp]
  simp only [hkid, hiss, Bool.not_true, Bool.false_eq_true, if_false, ite_false]
  exact finishKey_cached env st (t.payload.iss.getD "") (t.header.kid.getD "") k c ks hc hf hl

/-- Claim C1: for every invocation event, lambda_handler returns a
structured decision (in this embedding it is a total function, so no
exception escapes): the effect is always Allow or Deny, and every Deny
decision carries a context of exactly one error string. -/
theorem c1_fail_closed_decision (env : JwtEnv) (event : Event) (st : AuthState) :
    effectOf (lambda_handler env event st).1 = "Allow" ∨
    (effectOf (lambda_handler env event st).1 = "Deny" ∧
      ∃ m, (lambda_handler env event st).1.context = some [("error", m)]) := by
  rcases lambda_handler_cases env event st with ⟨_, h⟩ | ⟨e, st1, tr, _, _, h⟩ |
    ⟨k, st1, tr, e, _, _, _, h⟩ | ⟨k, st1, tr, d, _, _, _, _, h⟩ |
    ⟨k, st1, tr, d, e, _, _, _, _, _, h⟩ | ⟨k, st1, tr, d, ctx, _, _, _, _, _, h⟩
  case _ | _ | _ | _ | _ =>
    right
    rw [h]
    exact ⟨effectOf_generate_policy _ _ _ _, _, context_generate_policy_err _ _ _ _⟩
  case _ =>
    left
    rw [h]
    exact effectOf_generate_policy _ _ _ _

/-- Claim C9: every Deny decision carries the fixed principalId user, and
an Allow decision carries the verified sub claim as principalId. -/
theorem c9_deny_principal_is_fixed (env : JwtEnv) (event : Event) (st : AuthState) :
    (effectOf (lambda_handler env event st).1 = "Deny" →
      (lambda_handler env event st).1.principalId = "user") ∧
    (effectOf (lambda_handler env event st).1 = "Allow" →
      ∃ k st1 tr d,
        get_signing_key env (normalizeToken ((extractedToken event).getD "")) st =
          (Except.ok k, st1, tr) ∧
        jwt_decode_verified env (normalizeToken ((extractedToken event).getD "")) k =
          Except.ok d ∧
        pyTruthy d.sub = true ∧
        (lambda_handler env event st).1.principalId = d.sub.getD "") := by
  rcases lambda_handler_cases env event st with ⟨_, h⟩ | ⟨e, st1, tr, _, hg, h⟩ |
    ⟨k, st1, tr, e, _, hg, hd, h⟩ | ⟨k, st1, tr, d, _, hg, hd, hs, h⟩ |
    ⟨k, st1, tr, d, e, _, hg, hd, hs, hctx, h⟩ | ⟨k, st1, tr, d, ctx, _, hg, hd, hs, hctx, h⟩
  case _ | _ | _ | _ | _ =>
    constructor
    · intro _
      rw [h]
      exact principalId_generate_policy _ _ _ _
    · intro hA
      rw [h] at hA
      simp only [effectOf_generate_policy] at hA
      exact absurd hA (by decide)
  case _ =>
    constructor
    · intro hD
      rw [h] at hD
      simp only [effectOf_generate_policy] at hD
      exact absurd hD (by decide)
    · intro _
      exact ⟨k, st1, tr, d, hg, hd, hs, by rw [h]; exact principalId_generate_policy _ _ _ _⟩

/-- Claim C3: when no header name lowercases to authorization and the
authorizationToken field is absent or empty, the decision is Deny with
context exactly the error Authorization token missing. -/
theorem c3_missing_token_deny (env : JwtEnv) (event : Event) (st : AuthState)
    (hh : ∀ kv ∈ event.headers, pyLower kv.1 ≠ "authorization")
    (ht : event.authorizationToken = none ∨ event.authorizationToken = some "") :
    effectOf (lambda_handler env event st).1 = "Deny" ∧
    (lambda_handler env event st).1.context =
      some [("error", "Authorization token missing")] := by
  have hfind : event.headers.find? (fun kv => pyLower kv.1 == "authorization") = none := by
    rw [List.find?_eq_none]
    intro kv hkv
    simpa using hh kv hkv
  have hfa : findAuthHeader event.headers = none := by
    unfold findAuthHeader
    rw [hfind]
    rfl
  have htok : pyTruthy (extractedToken event) = false := by
    unfold extractedToken pyOr
    rw [hfa]
    rcases ht with h | h <;> simp [h, pyTruthy]
  rcases lambda_handler_cases env event st with ⟨_, h⟩ | ⟨e, st1, tr, hT, _, _⟩ |
    ⟨k, st1, tr, e, hT, _, _, _⟩ | ⟨k, st1, tr, d, hT, _, _, _, _⟩ |
    ⟨k, st1, tr, d, e, hT, _, _, _, _, _⟩ | ⟨k, st1, tr, d, ctx, hT, _, _, _, _, _⟩
  · rw [h]
    exact ⟨effectOf_generate_policy _ _ _ _, context_generate_policy_err _ _ _ _⟩
  all_goals (rw [htok] at hT; simp at hT)

/-- Claim C2: an Allow decision is produced only when the token parses,
its advertised algorithm is exactly ES256, its signature verifies against
the key resolved for it, its audience claim equals authenticated, and a
truthy sub claim is present; whenever the parsed token has a different
algorithm, a different audience, or a signature that does not verify under
the resolved key, the effect is Deny. -/
theorem c2_allow_only_after_verification (env : JwtEnv) (event : Event) (st : AuthState) :
    (effectOf (lambda_handler env event st).1 = "Allow" →
      ∃ t k, env.parse (normalizeToken ((extractedToken event).getD "")) = some t ∧
        (get_signing_key env (normalizeToken ((extractedToken event).getD "")) st).1 =
          Except.ok k ∧
        t.header.alg = some "ES256" ∧ env.sigValid k t = true ∧
        t.payload.aud = some "authenticated" ∧ pyTruthy t.payload.sub = true) ∧
    (∀ t, env.parse (normalizeToken ((extractedToken event).getD "")) = some t →
      (t.header.alg ≠ some "ES256" ∨ t.payload.aud ≠ some "authenticated" ∨
        (∀ k, (get_signing_key env (normalizeToken ((extractedToken event).getD "")) st).1 =
            Except.ok k → env.sigValid k t = false)) →
      effectOf (lambda_handler env event st).1 = "Deny") := by
  rcases lambda_handler_cases env event st with ⟨_, h⟩ | ⟨e, st1, tr, _, hg, h⟩ |
    ⟨k, st1, tr, e, _, hg, hd, h⟩ | ⟨k, st1, tr, d, _, hg, hd, hs, h⟩ |
    ⟨k, st1, tr, d, e, _, hg, hd, hs, hctx, h⟩ | ⟨k, st1, tr, d, ctx, _, hg, hd, hs, hctx, h⟩
  case _ | _ | _ | _ | _ =>
    constructor
    · intro hA
      rw [h] at hA
      simp only [effectOf_generate_policy] at hA
      exact absurd hA (by decide)
    · intro t _ _
      rw [h]
      exact effectOf_generate_policy _ _ _ _
  case _ =>
    constructor
    · intro _
      obtain ⟨t, hp, halg, hsig, haud, hdeq⟩ :=
        jwt_decode_verified_ok_inv env (normalizeToken ((extractedToken event).getD "")) k d hd
      refine ⟨t, k, hp, by rw [hg], halg, hsig, haud, ?_⟩
      rw [← hdeq]
      exact hs
    · intro t hp hbad
      obtain ⟨t2, hp2, halg, hsig, haud, hdeq⟩ :=
        jwt_decode_verified_ok_inv env (normalizeToken ((extractedToken event).getD "")) k d hd
      have ht2 : t2 = t := Option.some.inj (hp2.symm.trans hp)
      subst ht2
      rcases hbad with hb | hb | hb
      · exact absurd halg hb
      · exact absurd haud hb
      · have := hb k (by rw [hg])
        rw [hsig] at this
        simp at this

theorem lambda_handler_gsk_error (env : JwtEnv) (event : Event) (st : AuthState)
    (e : PyError) (st1 : AuthState) (tr : List String)
    (htok : pyTruthy (extractedToken event) = true)
    (hg : get_signing_key env (normalizeToken ((extractedToken event).getD "")) st =
      (Except.error e, st1, tr)) :
    lambda_handler env event st =
      (generate_policy "user" "Deny" (deriveResource event.methodArn)
        (some [("error", strOfErr e)]), st1, tr) := by
  simp [lambda_handler, htok, hg]

/-- Claim C4: a well-formed execute-api methodArn is rewritten to the
stage wildcard ARN (shown on the spec example and in general); a
methodArn without enough segments is passed through unchanged; a missing
methodArn falls back to the global wildcard. -/
theorem c4_resource_wildcard :
    deriveResource (some "arn:aws:execute-api:us-east-1:123456789012:abcxyz/prod/GET/posts") =
      "arn:aws:execute-api:us-east-1:123456789012:abcxyz/prod/*" ∧
    deriveResource (some "not-an-arn") = "not-an-arn" ∧
    deriveResource none = "*" ∧
    (∀ (m region account rest apiId stage : String) (segs : List String),
      pySplit m ':' = ["arn", "aws", "execute-api", region, account, rest] →
      pySplit rest '/' = apiId :: stage :: segs →
      deriveResource (some m) =
        "arn:aws:execute-api:" ++ region ++ ":" ++ account ++ ":" ++ apiId ++
          "/" ++ stage ++ "/*") := by
  refine ⟨by decide, by decide, by decide, ?_⟩
  intro m region account rest apiId stage segs h1 h2
  unfold deriveResource
  simp [h1, h2, List.getD]

/-- Claim C10: resource derivation never checks the literal ARN prefix:
any methodArn with at least six colon fields whose sixth field has at
least two slash segments is rebuilt with the fixed execute-api prefix
from fields four and five and the first two slash segments; in
particular a non execute-api ARN is silently rewritten. -/
theorem c10_prefix_not_validated :
    (∀ m : String, 6 ≤ (pySplit m ':').length →
      2 ≤ (pySplit ((pySplit m ':').getD 5 "") '/').length →
      deriveResource (some m) =
        "arn:aws:execute-api:" ++ (pySplit m ':').getD 3 "" ++ ":" ++
          (pySplit m ':').getD 4 "" ++ ":" ++
          (pySplit ((pySplit m ':').getD 5 "") '/').getD 0 "" ++ "/" ++
          (pySplit ((pySplit m ':').getD 5 "") '/').getD 1 "" ++ "/*") ∧
    deriveResource (some "x:y:z:r:acct:api/stage/p") =
      "arn:aws:execute-api:r:acct:api/stage/*" := by
  refine ⟨?_, by decide⟩
  intro m h6 h2
  simp only [deriveResource, Option.getD_some]
  rw [if_pos h6, if_pos h2]

/-- Claim C6: a token whose parsed header carries no truthy kid, or whose
parsed payload carries no truthy iss once kid is present, yields a Deny
decision whose context error is the corresponding malformed-token
diagnostic of get_signing_key; no exception escapes (the embedding is a
total function). -/
theorem c6_missing_kid_or_iss (env : JwtEnv) (event : Event) (st : AuthState) (t : JwtToken)
    (htok : pyTruthy (extractedToken event) = true)
    (hp : env.parse (normalizeToken ((extractedToken event).getD "")) = some t)
    (hbad : pyTruthy t.header.kid = false ∨
      (pyTruthy t.header.kid = true ∧ pyTruthy t.payload.iss = false)) :
    effectOf (lambda_handler env event st).1 = "Deny" ∧
    ((lambda_handler env event st).1.context = some [("error", kidMissingMsg)] ∨
     (lambda_handler env event st).1.context = some [("error", issMissingMsg)]) := by
  rcases hbad with hk | ⟨hk, hi⟩
  · have hg : get_signing_key env (normalizeToken ((extractedToken event).getD "")) st =
        (Except.error (PyError.pyjwt kidMissingMsg), st, []) := by
      unfold get_signing_key
      rw [hp]
      simp [hk]
    have h := lambda_handler_gsk_error env event st _ st [] htok hg
    rw [h]
    exact ⟨effectOf_generate_policy _ _ _ _, Or.inl (context_generate_policy_err _ _ _ _)⟩
  · have hg : get_signing_key env (normalizeToken ((extractedToken event).getD "")) st =
        (Except.error (PyError.pyjwt issMissingMsg), st, []) := by
      unfold get_signing_key
      rw [hp]
      simp [hk, hi]
    have h := lambda_handler_gsk_error env event st _ st [] htok hg
    rw [h]
    exact ⟨effectOf_generate_policy _ _ _ _, Or.inr (context_generate_policy_err _ _ _ _)⟩

/-- Claim C7: when key resolution succeeds, resolving again for the same
token in the resulting state returns the identical key material with no
further fetch and no state change, and the first resolution fetched the
key-discovery document at most once. -/
theorem c7_key_resolution_idempotent (env : JwtEnv) (token : String) (st : AuthState)
    (h : ∃ k, (get_signing_key env token st).1 = Except.ok k) :
    get_signing_key env token ((get_signing_key env token st).2.1) =
      ((get_signing_key env token st).1, (get_signing_key env token st).2.1, []) ∧
    (get_signing_key env token st).2.2.length ≤ 1 := by
  obtain ⟨k, hk⟩ := h
  rcases hg : get_signing_key env token st with ⟨r, st1, tr⟩
  rw [hg] at hk
  simp at hk
  subst hk
  obtain ⟨t, c, ks, hp, hkid, hiss, hc, hf, hl, htr⟩ :=
    get_signing_key_ok_inv env token st k st1 tr hg
  exact ⟨get_signing_key_cached env token st1 t c ks k hp hkid hiss hc hf hl, htr⟩

/-- Claim C8 counterexample: a token that is verified in every respect
(ES256, resolved key, audience authenticated, truthy sub) but whose
user_metadata claim is JSON null does not yield Allow with the
five-field context: the context construction raises and the handler
returns Deny with the internal-error diagnostic. -/
theorem c8_null_metadata_denies :
    jwt_decode_verified env8n (normalizeToken ((extractedToken event8n).getD "")) "KEY8N" =
      Except.ok d8n ∧
    pyTruthy d8n.sub = true ∧
    effectOf (lambda_handler env8n event8n st8n).1 = "Deny" ∧
    (lambda_handler env8n event8n st8n).1.context =
      some [("error", "Internal server error")] :=
  ⟨rfl, by decide, by decide, by decide⟩

/-- Claim C8 (amended): on the success path, when the user_metadata
claim is absent or an object, the context is exactly the five string
fields with user_id the sub claim and every missing or null optional
leaf claim coalesced to the empty string; when the verified payload
carries a JSON-null user_metadata, the decision is instead Deny with
the internal-error diagnostic. -/
theorem c8_success_context (env : JwtEnv) (event : Event) (st : AuthState)
    (k : String) (st1 : AuthState) (tr : List String) (d : JwtClaims)
    (htok : pyTruthy (extractedToken event) = true)
    (hg : get_signing_key env (normalizeToken ((extractedToken event).getD "")) st =
      (Except.ok k, st1, tr))
    (hd : jwt_decode_verified env (normalizeToken ((extractedToken event).getD "")) k =
      Except.ok d)
    (hs : pyTruthy d.sub = true) :
    (∀ um, pyGetUserMetadata d = some um →
      effectOf (lambda_handler env event st).1 = "Allow" ∧
      (lambda_handler env event st).1.context = some
        [("user_id", d.sub.getD ""),
         ("email", d.email.getD ""),
         ("role", d.role.getD ""),
         ("full_name", um.full_name.getD ""),
         ("profile_image_url", um.avatar_url.getD "")]) ∧
    (pyGetUserMetadata d = none →
      effectOf (lambda_handler env event st).1 = "Deny" ∧
      (lambda_handler env event st).1.context =
        some [("error", "Internal server error")]) := by
  constructor
  · intro um hm
    have hctx : authorizer_context d = Except.ok
        [("user_id", d.sub.getD ""),
         ("email", d.email.getD ""),
         ("role", d.role.getD ""),
         ("full_name", um.full_name.getD ""),
         ("profile_image_url", um.avatar_url.getD "")] := by
      unfold authorizer_context
      rw [hm]
    have h : lambda_handler env event st =
        (generate_policy (d.sub.getD "") "Allow" (deriveResource event.methodArn)
          (some [("user_id", d.sub.getD ""),
                 ("email", d.email.getD ""),
                 ("role", d.role.getD ""),
                 ("full_name", um.full_name.getD ""),
                 ("profile_image_url", um.avatar_url.getD "")]), st1, tr) := by
      simp [lambda_handler, htok, hg, hd, hs, hctx]
    rw [h]
    exact ⟨effectOf_generate_policy _ _ _ _, context_generate_policy_cons _ _ _ _ _⟩
  · intro hm
    have hctx : authorizer_context d = Except.error
        (PyError.other "AttributeError: NoneType object has no attribute get") := by
      unfold authorizer_context
      rw [hm]
    have h : lambda_handler env event st =
        (generate_policy "user" "Deny" (deriveResource event.methodArn)
          (some [("error", "Internal server error")]), st1, tr) := by
      simp [lambda_handler, htok, hg, hd, hs, hctx, strOfErr]
    rw [h]
    exact ⟨effectOf_generate_policy _ _ _ _, context_generate_policy_err _ _ _ _⟩

theorem pyLower_append (a b : String) : pyLower (a ++ b) = pyLower a ++ pyLower b := by
  apply String.ext
  simp [pyLower, String.data_append]

theorem isPrefixOf_self_append (l t : List Char) : l.isPrefixOf (l ++ t) = true := by
  rw [ List.isPrefixOf_iff_prefix]
  exact List.prefix_append l t

theorem pyStartsWith_append (p s : String) : pyStartsWith (p ++ s) p = true := by
  unfold pyStartsWith
  rw [String.data_append]
  exact isPrefixOf_self_append _ _

theorem findAuthHeader_cons_lower (k v : String) (rest : List (String × String))
    (h : pyLower k = "authorization") :
    findAuthHeader ((k, v) :: rest) = some v := by
  simp [findAuthHeader, List.find?, h]

theorem normalizeToken_bearer (pre tok : String)
    (hlow : pyLower pre = "bearer")
    (hstrip : pyStrip (pre ++ " " ++ tok) = pre ++ " " ++ tok) :
    normalizeToken (pre ++ " " ++ tok) = tok := by
  simp only [normalizeToken]
  rw [hstrip]
  have hlow2 : pyLower (pre ++ " " ++ tok) = "bearer " ++ pyLower tok := by
    rw [pyLower_append, pyLower_append, hlow]
    congr 1
  rw [hlow2, pyStartsWith_append]
  simp only [if_true]
  have hlen : pre.data.length = 6 := by
    have h := congrArg (fun s => s.data.length) hlow
    simp only [pyLower, List.length_map] at h
    rw [show ("bearer" : String).data.length = 6 from by decide] at h
    exact h
  unfold pyDrop
  rw [String.data_append, String.data_append,
    List.drop_left' (by rw [List.length_append, hlen,
      show (" " : String).data.length = 1 from by decide])]

/-- Claim C5: the authorization header is found by case-insensitive name
comparison (first match), the value is stripped of surrounding
whitespace, a Bearer marker in any letter casing followed by exactly one
space is removed, and a value with no such marker is used verbatim after
trimming. -/
theorem c5_token_extraction_normalization :
    (∀ (v : String) (rest : List (String × String)),
       findAuthHeader (("AUTHORIZATION", v) :: rest) = some v ∧
       findAuthHeader (("authorization", v) :: rest) = some v) ∧
    (∀ (k v : String) (rest : List (String × String)),
       pyLower k = "authorization" → findAuthHeader ((k, v) :: rest) = some v) ∧
    (∀ pre tok : String, pyLower pre = "bearer" →
       pyStrip (pre ++ " " ++ tok) = pre ++ " " ++ tok →
       normalizeToken (pre ++ " " ++ tok) = tok) ∧
    (∀ s : String, pyStartsWith (pyLower (pyStrip s)) "bearer " = false →
       normalizeToken s = pyStrip s) ∧
    normalizeToken "  Bearer abc  " = "abc" ∧
    normalizeToken "Bearer  abc" = " abc" ∧
    normalizeToken "abc" = "abc" := by
  refine ⟨?_, ?_, ?_, ?_, by decide, by decide, by decide⟩
  · intro v rest
    exact ⟨findAuthHeader_cons_lower _ _ _ (by decide),
           findAuthHeader_cons_lower _ _ _ (by decide)⟩
  · intro k v rest h
    exact findAuthHeader_cons_lower _ _ _ h
  · intro pre tok hlow hstrip
    exact normalizeToken_bearer pre tok hlow hstrip
  · intro s h
    simp [normalizeToken, h]

theorem c2_witness :
    (∃ t k, env2a.parse (normalizeToken ((extractedToken event2a).getD "")) = some t ∧
      (get_signing_key env2a (normalizeToken ((extractedToken event2a).getD "")) st2a).1 =
        Except.ok k ∧
      t.header.alg = some "ES256" ∧ env2a.sigValid k t = true ∧
      t.payload.aud = some "authenticated" ∧ pyTruthy t.payload.sub = true) ∧
    effectOf (lambda_handler env2b event2b st2b).1 = "Deny" :=
  ⟨(c2_allow_only_after_verification env2a event2a st2a).1 (by decide),
   (c2_allow_only_after_verification env2b event2b st2b).2 tok2b rfl (Or.inl (by decide))⟩

theorem c3_witness :
    effectOf (lambda_handler env3 event3 st3).1 = "Deny" ∧
    (lambda_handler env3 event3 st3).1.context =
      some [("error", "Authorization token missing")] :=
  c3_missing_token_deny env3 event3 st3 (by decide) (Or.inl rfl)

theorem c4_witness :
    deriveResource (some "arn:aws:execute-api:eu-west-2:42:api9/beta/POST/x") =
      "arn:aws:execute-api:" ++ "eu-west-2" ++ ":" ++ "42" ++ ":" ++ "api9" ++
        "/" ++ "beta" ++ "/*" :=
  c4_resource_wildcard.2.2.2 "arn:aws:execute-api:eu-west-2:42:api9/beta/POST/x"
    "eu-west-2" "42" "api9/beta/POST/x" "api9" "beta" ["POST", "x"] (by decide) (by decide)

theorem c5_witness :
    findAuthHeader [("AuThOrIzAtIoN", "v5")] = some "v5" ∧
    normalizeToken ("bEaReR" ++ " " ++ "xyz") = "xyz" :=
  ⟨c5_token_extraction_normalization.2.1 "AuThOrIzAtIoN" "v5" [] (by decide),
   c5_token_extraction_normalization.2.2.1 "bEaReR" "xyz" (by decide) (by decide)⟩

theorem c6_witness :
    effectOf (lambda_handler env6 event6 st6).1 = "Deny" ∧
    ((lambda_handler env6 event6 st6).1.context = some [("error", kidMissingMsg)] ∨
     (lambda_handler env6 event6 st6).1.context = some [("error", issMissingMsg)]) :=
  c6_missing_kid_or_iss env6 event6 st6 tok6 (by decide) rfl (Or.inl (by decide))

theorem c7_witness :
    (∃ k, (get_signing_key env7 "t7" st7).1 = Except.ok k) ∧
    (get_signing_key env7 "t7" ((get_signing_key env7 "t7" st7).2.1) =
      ((get_signing_key env7 "t7" st7).1, (get_signing_key env7 "t7" st7).2.1, []) ∧
     (get_signing_key env7 "t7" st7).2.2.length ≤ 1) :=
  ⟨⟨"KEY7", rfl⟩, c7_key_resolution_idempotent env7 "t7" st7 ⟨"KEY7", rfl⟩⟩

theorem c8_witness :
    effectOf (lambda_handler env8 event8 st8).1 = "Allow" ∧
    (lambda_handler env8 event8 st8).1.context = some
      [("user_id", "user-123"), ("email", "a@b.com"), ("role", ""),
       ("full_name", ""), ("profile_image_url", "")] :=
  (c8_success_context env8 event8 st8 "KEY8"
    ((get_signing_key env8 (normalizeToken ((extractedToken event8).getD "")) st8).2.1)
    ((get_signing_key env8 (normalizeToken ((extractedToken event8).getD "")) st8).2.2)
    d8 (by decide) rfl rfl (by decide)).1
    { full_name := none, avatar_url := none } rfl

theorem c9_witness :
    (lambda_handler env9 event9 st9).1.principalId = "user" :=
  (c9_deny_principal_is_fixed env9 event9 st9).1 (by decide)

theorem c10_witness :
    deriveResource (some "k:l:m:n:o:p/q/r") = "arn:aws:execute-api:n:o:p/q/*" :=
  c10_prefix_not_validated.1 "k:l:m:n:o:p/q/r" (by decide) (by decide)

end TarotAuthorizer
